import Mathlib

/-!
Shallow embedding of the oura-scraper OAuth token lifecycle and scrape
orchestration (src/oura_scraper/auth.py, src/oura_scraper/scraper.py).

Modelling conventions:
* Timestamps are `Int` seconds; `datetime.now(UTC)` becomes an explicit
  `now : Int` parameter; `timedelta(minutes=5)` is `300`,
  `timedelta(days=365)` is `365 * 86400`.
* Python string truthiness (`if settings.access_token and ...`) is
  "the string is nonempty".
* An ISO-8601 timestamp string is modelled by `IsoString`: either a string
  that `datetime.fromisoformat` parses to a timestamp `t` (`IsoString.valid t`;
  `isoformat`/`fromisoformat` are exact inverses, so serialising `t` yields
  `IsoString.valid t`), or a string it rejects with `ValueError`
  (`IsoString.invalid s`).
* Exceptions become `Except`: caught exception classes are explicit error
  constructors, an uncaught exception propagates as an `Except.error`.
* HTTP calls to the vendor token endpoint are an oracle
  `String → Except Int TokenResponse`: `Except.error status` models
  `raise_for_status` on a non-2xx response.
-/

/-- Python exception classes relevant to token loading. -/
inductive PyErr
  | jsonDecodeError
  | keyError
  | valueError
deriving DecidableEq, Repr

/-- `OAuthTokens` dataclass (auth.py lines 48-90). -/
structure OAuthTokens where
  access_token : String
  refresh_token : String
  expires_at : Int
  token_type : String := "bearer"
deriving DecidableEq, Repr

/-- `OAuthTokens.is_expired`: `datetime.now(UTC) >= (self.expires_at - timedelta(minutes=5))`. -/
def OAuthTokens.is_expired (t : OAuthTokens) (now : Int) : Bool :=
  decide (t.expires_at - 300 ≤ now)

/-- An ISO timestamp string, abstracted by its `datetime.fromisoformat` parse result. -/
inductive IsoString
  | valid (t : Int)
  | invalid (s : String)
deriving DecidableEq, Repr

/-- The JSON object stored in the token file: each key of the dict is
optional (`none` models an absent key). -/
structure TokenDict where
  access_token : Option String
  refresh_token : Option String
  expires_at : Option IsoString
  token_type : Option String
deriving DecidableEq, Repr

/-- `OAuthTokens.to_dict`: all four keys written, `expires_at` via `isoformat()`. -/
def OAuthTokens.to_dict (t : OAuthTokens) : TokenDict :=
  { access_token := some t.access_token
    refresh_token := some t.refresh_token
    expires_at := some (.valid t.expires_at)
    token_type := some t.token_type }

/-- `OAuthTokens.from_dict`: subscripting a missing key raises `KeyError`
(`access_token`, `refresh_token`, `expires_at` are accessed in that order,
all via `data[...]`); `datetime.fromisoformat` raises `ValueError` on an
unparseable string; `token_type` uses `data.get("token_type", "bearer")`. -/
def OAuthTokens.from_dict (d : TokenDict) : Except PyErr OAuthTokens :=
  match d.access_token, d.refresh_token, d.expires_at with
  | some a, some r, some iso =>
    match iso with
    | .valid t =>
      .ok { access_token := a, refresh_token := r, expires_at := t,
            token_type := d.token_type.getD "bearer" }
    | .invalid _ => .error .valueError
  | _, _, _ => .error .keyError

/-- Vendor token-endpoint JSON response body. -/
structure TokenResponse where
  access_token : String
  refresh_token : String
  expires_in : Option Int
  token_type : Option String
deriving DecidableEq, Repr

/-- `OAuthTokens.from_token_response`: `expires_in` defaults to 86400 (24h),
`expires_at = now + expires_in`, `token_type` defaults to "bearer". -/
def OAuthTokens.from_token_response (r : TokenResponse) (now : Int) : OAuthTokens :=
  { access_token := r.access_token
    refresh_token := r.refresh_token
    expires_at := now + r.expires_in.getD 86400
    token_type := r.token_type.getD "bearer" }

/-- C3: for every token pair and every time `now`, `is_expired` is true iff
`now ≥ expires_at - 5 min`; it is true at the exact boundary, true just
after it, and false just before it. -/
theorem is_expired_iff_past_buffer (t : OAuthTokens) (now : Int) :
    (t.is_expired now = true ↔ t.expires_at - 300 ≤ now)
    ∧ t.is_expired (t.expires_at - 300) = true
    ∧ t.is_expired (t.expires_at - 299) = true
    ∧ t.is_expired (t.expires_at - 301) = false := by
  refine ⟨by simp [OAuthTokens.is_expired], ?_, ?_, ?_⟩ <;>
    simp [OAuthTokens.is_expired] <;> omega

/-- The `OURA_`-prefixed environment settings relevant to token loading
(config.py): both token fields default to the empty string, and Python
truthiness treats the empty string as absent. -/
structure Settings where
  access_token : String
  refresh_token : String
deriving DecidableEq, Repr

/-- The token pair both `load` implementations synthesize from environment
variables: `expires_at = now + timedelta(days=365)`, `token_type = "bearer"`. -/
def envTokens (s : Settings) (now : Int) : OAuthTokens :=
  { access_token := s.access_token
    refresh_token := s.refresh_token
    expires_at := now + 365 * 86400
    token_type := "bearer" }

/-- State of the file backend's token file: missing, present but rejected by
`json.loads` (`JSONDecodeError`), or present and parsed to a JSON object. -/
inductive FileContent
  | missing
  | badJson
  | parsed (d : TokenDict)
deriving DecidableEq, Repr

namespace TokenStorage

/-- `TokenStorage.save`: writes `json.dumps(tokens.to_dict())` to the file. -/
def save (t : OAuthTokens) : FileContent :=
  .parsed t.to_dict

/-- `TokenStorage.load` (auth.py lines 122-146): env vars first (both
truthy → synthesized pair); otherwise the file: missing → `None`;
`json.JSONDecodeError` and `KeyError` are caught and yield `None` with a
warning; any other exception (notably `ValueError` from
`datetime.fromisoformat`) propagates. -/
def load (s : Settings) (now : Int) (file : FileContent) :
    Except PyErr (Option OAuthTokens) :=
  if s.access_token ≠ "" ∧ s.refresh_token ≠ "" then
    .ok (some (envTokens s now))
  else
    match file with
    | .missing => .ok none
    | .badJson => .ok none
    | .parsed d =>
      match OAuthTokens.from_dict d with
      | .ok t => .ok (some t)
      | .error .jsonDecodeError => .ok none
      | .error .keyError => .ok none
      | .error e => .error e

end TokenStorage

/-- One row of the `oauth_tokens` table (id = 1); `token_type` is a nullable
column. -/
structure DbRow where
  access_token : String
  refresh_token : String
  expires_at : Int
  token_type : Option String
deriving DecidableEq, Repr

/-- The database either answers queries or raises `psycopg.Error`. -/
inductive DbConn
  | up
  | down
deriving DecidableEq, Repr

namespace DatabaseTokenStorage

/-- `DatabaseTokenStorage.save`: upsert on the fixed key, always a full
overwrite of the single row. -/
def save (t : OAuthTokens) (_db : Option DbRow) : Option DbRow :=
  some { access_token := t.access_token
         refresh_token := t.refresh_token
         expires_at := t.expires_at
         token_type := some t.token_type }

/-- `DatabaseTokenStorage.load` (auth.py lines 199-239): env vars first;
otherwise `SELECT ... WHERE id = 1`, rebuilding the pair with
`row[3] or "bearer"` (Python `or`: NULL or empty string → "bearer");
`psycopg.Error` is caught and yields `None` with a warning. -/
def load (s : Settings) (now : Int) (conn : DbConn) (db : Option DbRow) :
    Option OAuthTokens :=
  if s.access_token ≠ "" ∧ s.refresh_token ≠ "" then
    some (envTokens s now)
  else
    match conn with
    | .down => none
    | .up =>
      match db with
      | none => none
      | some row =>
        some { access_token := row.access_token
               refresh_token := row.refresh_token
               expires_at := row.expires_at
               token_type :=
                 match row.token_type with
                 | none => "bearer"
                 | some ty => if ty = "" then "bearer" else ty }

end DatabaseTokenStorage

/-- C4: for both backends, when the environment supplies both tokens
(nonempty strings), `load` returns the synthesized 1-year pair whatever the
backend holds; when either is absent, `load` falls back to the backend's
durable storage, and an empty backend yields absent. -/
theorem load_precedence (s : Settings) (now : Int) :
    (s.access_token ≠ "" → s.refresh_token ≠ "" →
      (∀ file, TokenStorage.load s now file = .ok (some (envTokens s now)))
      ∧ (∀ conn db, DatabaseTokenStorage.load s now conn db = some (envTokens s now)))
    ∧ (s.access_token = "" ∨ s.refresh_token = "" →
      TokenStorage.load s now .missing = .ok none
      ∧ (∀ t, TokenStorage.load s now (TokenStorage.save t) = .ok (some t))
      ∧ (∀ conn, DatabaseTokenStorage.load s now conn none = none)
      ∧ (∀ row, DatabaseTokenStorage.load s now .up (some row) =
          some { access_token := row.access_token
                 refresh_token := row.refresh_token
                 expires_at := row.expires_at
                 token_type :=
                   match row.token_type with
                   | none => "bearer"
                   | some ty => if ty = "" then "bearer" else ty })) := by
  constructor
  · intro ha hr
    refine ⟨fun file => ?_, fun conn db => ?_⟩
    · simp [TokenStorage.load, ha, hr]
    · simp [DatabaseTokenStorage.load, ha, hr]
  · intro h
    have hg : ¬ (s.access_token ≠ "" ∧ s.refresh_token ≠ "") := by
      rcases h with h | h <;> simp [h]
    refine ⟨?_, fun t => ?_, fun conn => ?_, fun row => ?_⟩
    · simp [TokenStorage.load, hg]
    · simp [TokenStorage.load, TokenStorage.save, hg, OAuthTokens.to_dict,
        OAuthTokens.from_dict]
    · cases conn <;> simp [DatabaseTokenStorage.load, hg]
    · simp [DatabaseTokenStorage.load, hg]

/-- Witness for C4 at concrete settings and backend states. -/
theorem load_precedence_witness :
    (TokenStorage.load ⟨"envA", "envR"⟩ 0 (.parsed (OAuthTokens.to_dict ⟨"fa", "fr", 7, "bearer"⟩))
      = .ok (some ⟨"envA", "envR", 365 * 86400, "bearer"⟩))
    ∧ (DatabaseTokenStorage.load ⟨"envA", "envR"⟩ 0 .up (some ⟨"da", "dr", 9, some "bearer"⟩)
      = some ⟨"envA", "envR", 365 * 86400, "bearer"⟩)
    ∧ (TokenStorage.load ⟨"", "envR"⟩ 0 .missing = .ok none)
    ∧ (TokenStorage.load ⟨"", "envR"⟩ 0 (TokenStorage.save ⟨"fa", "fr", 7, "bearer"⟩)
      = .ok (some ⟨"fa", "fr", 7, "bearer"⟩))
    ∧ (DatabaseTokenStorage.load ⟨"", "envR"⟩ 0 .down none = none) := by
  have h1 := (load_precedence ⟨"envA", "envR"⟩ 0).1 (by decide) (by decide)
  have h2 := (load_precedence ⟨"", "envR"⟩ 0).2 (Or.inl rfl)
  exact ⟨h1.1 _, h1.2 .up _, h2.1, h2.2.1 _, h2.2.2.1 .down⟩

/-- C7 counterexample: a token file that parses as JSON with all required
keys but an `expires_at` string `datetime.fromisoformat` rejects makes
`load` raise `ValueError` instead of returning absent (only
`json.JSONDecodeError` and `KeyError` are caught, auth.py line 144). -/
theorem load_corrupt_counterexample :
    TokenStorage.load ⟨"", ""⟩ 0
        (.parsed ⟨some "a", some "r", some (.invalid "not-a-timestamp"), none⟩)
      = .error .valueError := by
  rfl

/-- C7 amended: with no environment override, file content that fails JSON
decoding, or that lacks one of the required keys (exactly the `KeyError`
cases of `from_dict`), is treated as "no tokens" (`load` returns absent with
a warning); content whose `expires_at` string is unparseable propagates
`ValueError` to the caller. -/
theorem load_corrupt_returns_none (s : Settings) (now : Int)
    (henv : s.access_token = "" ∨ s.refresh_token = "") :
    (∀ d : TokenDict, OAuthTokens.from_dict d = .error .keyError ↔
        d.access_token = none ∨ d.refresh_token = none ∨ d.expires_at = none)
    ∧ TokenStorage.load s now .badJson = .ok none
    ∧ (∀ d, OAuthTokens.from_dict d = .error .keyError →
        TokenStorage.load s now (.parsed d) = .ok none)
    ∧ (∀ d, OAuthTokens.from_dict d = .error .valueError →
        TokenStorage.load s now (.parsed d) = .error .valueError) := by
  have hg : ¬ (s.access_token ≠ "" ∧ s.refresh_token ≠ "") := by
    rcases henv with h | h <;> simp [h]
  refine ⟨fun d => ?_, by simp [TokenStorage.load, hg],
    fun d h => by simp [TokenStorage.load, hg, h],
    fun d h => by simp [TokenStorage.load, hg, h]⟩
  obtain ⟨a, r, e, ty⟩ := d
  rcases e with _ | iso
  · cases a <;> cases r <;> simp [OAuthTokens.from_dict]
  · rcases iso with t | str <;> cases a <;> cases r <;>
      simp [OAuthTokens.from_dict]

/-- Witness for C7 amended at concrete file contents. -/
theorem load_corrupt_returns_none_witness :
    TokenStorage.load ⟨"", ""⟩ 0 .badJson = .ok none
    ∧ TokenStorage.load ⟨"", ""⟩ 0 (.parsed ⟨none, some "r", some (.valid 5), none⟩) = .ok none
    ∧ TokenStorage.load ⟨"", ""⟩ 0 (.parsed ⟨some "a", some "r", some (.invalid "xx"), none⟩)
      = .error .valueError := by
  have h := load_corrupt_returns_none ⟨"", ""⟩ 0 (Or.inl rfl)
  exact ⟨h.2.1, h.2.2.1 _ ((h.1 _).mpr (Or.inl rfl)), h.2.2.2 _ rfl⟩

/-- C8 counterexample: the database backend does not round-trip a pair whose
`token_type` is the empty string — `row[3] or "bearer"` (auth.py line 234)
turns the falsy empty string into "bearer", so `load (save T) ≠ T`. -/
theorem round_trip_counterexample :
    DatabaseTokenStorage.load ⟨"", ""⟩ 0 .up
        (DatabaseTokenStorage.save ⟨"a", "r", 0, ""⟩ none)
      ≠ some ⟨"a", "r", 0, ""⟩ := by
  decide

/-- C8 amended: with no environment override, `load` after `save` returns
the saved pair exactly (every field, full timestamp precision) for the file
backend for every pair, and for the database backend for every pair whose
`token_type` is nonempty (Python-truthy). -/
theorem round_trip (s : Settings) (t : OAuthTokens) (now : Int)
    (henv : s.access_token = "" ∨ s.refresh_token = "") :
    TokenStorage.load s now (TokenStorage.save t) = .ok (some t)
    ∧ (t.token_type ≠ "" → ∀ db,
        DatabaseTokenStorage.load s now .up (DatabaseTokenStorage.save t db) = some t) := by
  have hg : ¬ (s.access_token ≠ "" ∧ s.refresh_token ≠ "") := by
    rcases henv with h | h <;> simp [h]
  constructor
  · simp [TokenStorage.load, TokenStorage.save, hg, OAuthTokens.to_dict,
      OAuthTokens.from_dict]
  · intro hty db
    simp [DatabaseTokenStorage.load, DatabaseTokenStorage.save, hg, hty]

/-- Witness for C8 amended at a concrete pair. -/
theorem round_trip_witness :
    TokenStorage.load ⟨"", ""⟩ 0 (TokenStorage.save ⟨"a", "r", 42, "bearer"⟩)
      = .ok (some ⟨"a", "r", 42, "bearer"⟩)
    ∧ DatabaseTokenStorage.load ⟨"", ""⟩ 0 .up
        (DatabaseTokenStorage.save ⟨"a", "r", 42, "bearer"⟩ none)
      = some ⟨"a", "r", 42, "bearer"⟩ := by
  have h := round_trip ⟨"", ""⟩ ⟨"a", "r", 42, "bearer"⟩ 0 (Or.inl rfl)
  exact ⟨h.1, h.2 (by decide) none⟩

/-- Errors the session manager raises (`ValueError`s in the source, the
spec's `AuthError` taxonomy) plus HTTP failures surfaced by
`raise_for_status`, modelled by kind. -/
inductive AuthErr
  | noStoredTokens
  | noTokens
  | authDenied (e : String)
  | timeout
  | stateMismatch
  | httpStatus (status : Int)
deriving DecidableEq, Repr

/-- The session manager's mutable state: `stored` abstracts the token
storage backend to the pair `self.storage.load()` currently returns
(`save` replaces it), `cache` is the in-memory `self._tokens`. -/
structure SessionState where
  stored : Option OAuthTokens
  cache : Option OAuthTokens
deriving DecidableEq, Repr

/-- A vendor token-endpoint oracle: the response of the form-encoded POST,
keyed by the code or refresh token it carries; `Except.error status` models
`raise_for_status` on a non-2xx response. -/
abbrev Vendor := String → Except Int TokenResponse

/-- `OuraAuth.exchange_code` (auth.py lines 336-369): POST the
authorization-code grant, convert the response, save the pair to storage
and set `self._tokens`. -/
def exchange_code (vendor : Vendor) (now : Int) (_st : SessionState)
    (code : String) : Except AuthErr (OAuthTokens × SessionState) :=
  match vendor code with
  | .error status => .error (.httpStatus status)
  | .ok resp =>
    let tokens := OAuthTokens.from_token_response resp now
    .ok (tokens, { stored := some tokens, cache := some tokens })

/-- The body of `refresh_tokens` once the refresh token is selected
(auth.py lines 389-407): POST the refresh grant, convert the response,
save the new pair to storage and set `self._tokens`. -/
def refreshGrant (vendor : Vendor) (now : Int) (rt : String) :
    Except AuthErr (OAuthTokens × SessionState) :=
  match vendor rt with
  | .error status => .error (.httpStatus status)
  | .ok resp =>
    let tokens := OAuthTokens.from_token_response resp now
    .ok (tokens, { stored := some tokens, cache := some tokens })

/-- `OuraAuth.refresh_tokens` (auth.py lines 371-407): use the supplied
refresh token, or load the stored pair's (raising
`ValueError("No stored tokens and no refresh_token provided")` when the
load yields nothing), then run the grant. -/
def refresh_tokens (vendor : Vendor) (now : Int) (st : SessionState)
    (refreshTok : Option String) : Except AuthErr (OAuthTokens × SessionState) :=
  match refreshTok with
  | some rt => refreshGrant vendor now rt
  | none =>
    match st.stored with
    | none => .error .noStoredTokens
    | some p => refreshGrant vendor now p.refresh_token

/-- The storage path of `get_valid_token` (auth.py lines 419-430), taken
when the cache is empty or the cached pair is expired: load, fail with the
no-tokens error if nothing is stored, refresh if the stored pair is
expired, then cache and return. -/
def get_valid_token_load (vendor : Vendor) (now : Int) (st : SessionState) :
    Except AuthErr (String × SessionState) :=
  match st.stored with
  | none => .error .noTokens
  | some tokens =>
    if tokens.is_expired now then
      match refresh_tokens vendor now st (some tokens.refresh_token) with
      | .error e => .error e
      | .ok (newTokens, st2) =>
        .ok (newTokens.access_token, { st2 with cache := some newTokens })
    else
      .ok (tokens.access_token, { st with cache := some tokens })

/-- `OuraAuth.get_valid_token` (auth.py lines 409-430): the cached pair is
returned while unexpired, otherwise the storage path runs. -/
def get_valid_token (vendor : Vendor) (now : Int) (st : SessionState) :
    Except AuthErr (String × SessionState) :=
  match st.cache with
  | some c =>
    if !(c.is_expired now) then
      .ok (c.access_token, st)
    else
      get_valid_token_load vendor now st
  | none => get_valid_token_load vendor now st

/-- C5: the refresh grant uses the explicitly supplied refresh token or,
when none is supplied, the stored pair's; with neither it fails with an
`AuthError`; on success the vendor's whole new pair is persisted as a full
replacement of the stored pair; a non-2xx vendor response fails with the
carried status. -/
theorem refresh_tokens_spec (vendor : Vendor) (now : Int) (st : SessionState) :
    (∀ rt, refresh_tokens vendor now st (some rt) = refreshGrant vendor now rt)
    ∧ (∀ p, st.stored = some p →
        refresh_tokens vendor now st none = refreshGrant vendor now p.refresh_token)
    ∧ (st.stored = none → refresh_tokens vendor now st none = .error .noStoredTokens)
    ∧ (∀ rt r, vendor rt = .ok r →
        refreshGrant vendor now rt =
          .ok (OAuthTokens.from_token_response r now,
               ⟨some (OAuthTokens.from_token_response r now),
                some (OAuthTokens.from_token_response r now)⟩))
    ∧ (∀ rt status, vendor rt = .error status →
        refreshGrant vendor now rt = .error (.httpStatus status)) := by
  refine ⟨fun rt => rfl, fun p hp => ?_, fun hs => ?_,
    fun rt r hv => ?_, fun rt status hv => ?_⟩
  · simp [refresh_tokens, hp]
  · simp [refresh_tokens, hs]
  · simp [refreshGrant, hv]
  · simp [refreshGrant, hv]

/-- Witness for C5 at a concrete vendor and states. -/
theorem refresh_tokens_spec_witness :
    refresh_tokens (fun _ => .ok ⟨"a2", "r2", some 3600, none⟩) 1000
        ⟨some ⟨"a1", "r1", 0, "bearer"⟩, none⟩ none
      = refreshGrant (fun _ => .ok ⟨"a2", "r2", some 3600, none⟩) 1000 "r1"
    ∧ refresh_tokens (fun _ => .ok ⟨"a2", "r2", some 3600, none⟩) 1000
        ⟨none, none⟩ none = .error .noStoredTokens
    ∧ refreshGrant (fun _ => .ok ⟨"a2", "r2", some 3600, none⟩) 1000 "r1"
      = .ok (⟨"a2", "r2", 4600, "bearer"⟩,
             ⟨some ⟨"a2", "r2", 4600, "bearer"⟩, some ⟨"a2", "r2", 4600, "bearer"⟩⟩)
    ∧ refreshGrant (fun _ => .error 401) 1000 "r1" = .error (.httpStatus 401) := by
  refine ⟨(refresh_tokens_spec _ 1000 _).2.1 ⟨"a1", "r1", 0, "bearer"⟩ rfl,
    (refresh_tokens_spec (fun _ => .ok ⟨"a2", "r2", some 3600, none⟩) 1000 ⟨none, none⟩).2.2.1 rfl,
    ((refresh_tokens_spec (fun _ => .ok ⟨"a2", "r2", some 3600, none⟩) 1000 ⟨none, none⟩).2.2.2.1
      "r1" ⟨"a2", "r2", some 3600, none⟩ rfl).trans rfl,
    (refresh_tokens_spec (fun _ => .error 401) 1000 ⟨none, none⟩).2.2.2.2 "r1" 401 rfl⟩

/-- C10: whenever `exchange_code` or `refresh_tokens` succeeds, the pair
returned, the pair cached in `self._tokens` and the pair saved to the
storage backend are one and the same. -/
theorem success_updates_cache_and_storage (vendor : Vendor) (now : Int)
    (st : SessionState) :
    (∀ code t st2, exchange_code vendor now st code = .ok (t, st2) →
      st2.cache = some t ∧ st2.stored = some t)
    ∧ (∀ rt t st2, refresh_tokens vendor now st rt = .ok (t, st2) →
      st2.cache = some t ∧ st2.stored = some t) := by
  constructor
  · intro code t st2 h
    cases hv : vendor code with
    | error s => simp [exchange_code, hv] at h
    | ok r =>
      simp [exchange_code, hv] at h
      obtain ⟨h1, h2⟩ := h
      subst h1 h2
      exact ⟨rfl, rfl⟩
  · intro rt t st2 h
    have grant : ∀ s, refreshGrant vendor now s = .ok (t, st2) →
        st2.cache = some t ∧ st2.stored = some t := by
      intro s hg
      cases hv : vendor s with
      | error c => simp [refreshGrant, hv] at hg
      | ok r =>
        simp [refreshGrant, hv] at hg
        obtain ⟨h1, h2⟩ := hg
        subst h1 h2
        exact ⟨rfl, rfl⟩
    cases rt with
    | some s => exact grant s h
    | none =>
      cases hst : st.stored with
      | none => simp [refresh_tokens, hst] at h
      | some p =>
        rw [refresh_tokens, hst] at h
        exact grant p.refresh_token h

/-- Witness for C10 at a concrete vendor, code and refresh call. -/
theorem success_updates_cache_and_storage_witness :
    ((⟨some ⟨"a2", "r2", 4600, "bearer"⟩, some ⟨"a2", "r2", 4600, "bearer"⟩⟩ :
        SessionState).cache = some ⟨"a2", "r2", 4600, "bearer"⟩
      ∧ (⟨some ⟨"a2", "r2", 4600, "bearer"⟩, some ⟨"a2", "r2", 4600, "bearer"⟩⟩ :
        SessionState).stored = some ⟨"a2", "r2", 4600, "bearer"⟩)
    ∧ ((⟨some ⟨"a3", "r3", 1300, "bearer"⟩, some ⟨"a3", "r3", 1300, "bearer"⟩⟩ :
        SessionState).cache = some ⟨"a3", "r3", 1300, "bearer"⟩
      ∧ (⟨some ⟨"a3", "r3", 1300, "bearer"⟩, some ⟨"a3", "r3", 1300, "bearer"⟩⟩ :
        SessionState).stored = some ⟨"a3", "r3", 1300, "bearer"⟩) := by
  refine ⟨(success_updates_cache_and_storage (fun _ => .ok ⟨"a2", "r2", some 3600, none⟩)
      1000 ⟨none, none⟩).1 "thecode" ⟨"a2", "r2", 4600, "bearer"⟩ _ rfl,
    (success_updates_cache_and_storage (fun _ => .ok ⟨"a3", "r3", some 300, none⟩)
      1000 ⟨none, none⟩).2 (some "r1") ⟨"a3", "r3", 1300, "bearer"⟩ _ rfl⟩

/-- Helper: every success of the storage path of `get_valid_token` caches
and returns a pair unexpired at `now`, when the vendor issues tokens with
more than the 5-minute margin of lifetime. -/
theorem get_valid_token_load_valid (vendor : Vendor) (now : Int) (st : SessionState)
    (hvendor : ∀ s r, vendor s = .ok r → 300 < r.expires_in.getD 86400)
    (acc : String) (st2 : SessionState)
    (hok : get_valid_token_load vendor now st = .ok (acc, st2)) :
    ∃ p, st2.cache = some p ∧ acc = p.access_token ∧ p.is_expired now = false := by
  cases hst : st.stored with
  | none => simp [get_valid_token_load, hst] at hok
  | some tokens =>
    by_cases hexp : tokens.is_expired now
    · cases hv : vendor tokens.refresh_token with
      | error s =>
        simp [get_valid_token_load, hst, hexp, refresh_tokens, refreshGrant, hv] at hok
      | ok r =>
        simp [get_valid_token_load, hst, hexp, refresh_tokens, refreshGrant, hv] at hok
        refine ⟨OAuthTokens.from_token_response r now, ?_, hok.1.symm, ?_⟩
        · rw [← hok.2]
        · have hlife := hvendor _ _ hv
          simp [OAuthTokens.is_expired, OAuthTokens.from_token_response]
          omega
    · simp [get_valid_token_load, hst, hexp] at hok
      refine ⟨tokens, ?_, hok.1.symm, by simpa using hexp⟩
      rw [← hok.2]

/-- C1: `get_valid_token` fails with the no-tokens `AuthError` when neither
the cache nor storage holds a pair; it returns the cached access token
while the cached pair is valid; when the cache is empty or stale it falls
back to the stored pair, returning it directly if still valid and otherwise
refreshing transparently with the stored refresh token; and every token it
returns is currently valid, provided the vendor issues tokens with more
than the 5-minute margin of lifetime. -/
theorem get_valid_token_spec (vendor : Vendor) (now : Int) (st : SessionState) :
    (st.cache = none → st.stored = none →
      get_valid_token vendor now st = .error .noTokens)
    ∧ (∀ c, st.cache = some c → c.is_expired now = false →
      get_valid_token vendor now st = .ok (c.access_token, st))
    ∧ ((∀ c, st.cache = some c → c.is_expired now = true) →
      ∀ p, st.stored = some p →
        (p.is_expired now = false →
          get_valid_token vendor now st = .ok (p.access_token, { st with cache := some p }))
        ∧ (p.is_expired now = true →
          get_valid_token vendor now st =
            match refresh_tokens vendor now st (some p.refresh_token) with
            | .error e => .error e
            | .ok (newTokens, st2) =>
              .ok (newTokens.access_token, { st2 with cache := some newTokens })))
    ∧ ((∀ s r, vendor s = .ok r → 300 < r.expires_in.getD 86400) →
      ∀ acc st2, get_valid_token vendor now st = .ok (acc, st2) →
        ∃ p, st2.cache = some p ∧ acc = p.access_token ∧ p.is_expired now = false) := by
  refine ⟨?_, ?_, ?_, ?_⟩
  · intro hc hs
    simp [get_valid_token, hc, get_valid_token_load, hs]
  · intro c hc hval
    simp [get_valid_token, hc, hval]
  · intro hstale p hp
    have hload : get_valid_token vendor now st = get_valid_token_load vendor now st := by
      cases hcache : st.cache with
      | none => simp [get_valid_token, hcache]
      | some c => simp [get_valid_token, hcache, hstale c hcache]
    constructor
    · intro hfresh
      rw [hload]
      simp [get_valid_token_load, hp, hfresh]
    · intro hexp
      rw [hload]
      simp [get_valid_token_load, hp, hexp]
  · intro hvendor acc st2 hok
    cases hcache : st.cache with
    | none =>
      rw [get_valid_token, hcache] at hok
      exact get_valid_token_load_valid vendor now st hvendor acc st2 hok
    | some c =>
      rw [get_valid_token, hcache] at hok
      by_cases hval : c.is_expired now
      · simp [hval] at hok
        exact get_valid_token_load_valid vendor now st hvendor acc st2 hok
      · have hvf : c.is_expired now = false := by simpa using hval
        simp [hvf] at hok
        exact ⟨c, by rw [← hok.2]; exact hcache, hok.1.symm, hvf⟩

/-- Witness for C1 at a concrete vendor and concrete session states. -/
theorem get_valid_token_spec_witness :
    get_valid_token (fun _ => .ok ⟨"a2", "r2", some 3600, none⟩) 1000 ⟨none, none⟩
      = .error .noTokens
    ∧ get_valid_token (fun _ => .ok ⟨"a2", "r2", some 3600, none⟩) 1000
        ⟨none, some ⟨"a1", "r1", 999999, "bearer"⟩⟩
      = .ok ("a1", ⟨none, some ⟨"a1", "r1", 999999, "bearer"⟩⟩)
    ∧ get_valid_token (fun _ => .ok ⟨"a2", "r2", some 3600, none⟩) 1000
        ⟨some ⟨"a1", "r1", 999999, "bearer"⟩, none⟩
      = .ok ("a1", ⟨some ⟨"a1", "r1", 999999, "bearer"⟩,
                   some ⟨"a1", "r1", 999999, "bearer"⟩⟩)
    ∧ get_valid_token (fun _ => .ok ⟨"a2", "r2", some 3600, none⟩) 1000
        ⟨some ⟨"a1", "r1", 0, "bearer"⟩, none⟩
      = .ok ("a2", ⟨some ⟨"a2", "r2", 4600, "bearer"⟩,
                   some ⟨"a2", "r2", 4600, "bearer"⟩⟩) := by
  refine ⟨(get_valid_token_spec _ 1000 ⟨none, none⟩).1 rfl rfl,
    (get_valid_token_spec _ 1000 _).2.1 ⟨"a1", "r1", 999999, "bearer"⟩ rfl (by decide),
    ((get_valid_token_spec _ 1000 ⟨some ⟨"a1", "r1", 999999, "bearer"⟩, none⟩).2.2.1
      (fun c hc => by cases hc) ⟨"a1", "r1", 999999, "bearer"⟩ rfl).1 (by decide),
    (((get_valid_token_spec _ 1000 ⟨some ⟨"a1", "r1", 0, "bearer"⟩, none⟩).2.2.1
      (fun c hc => by cases hc) ⟨"a1", "r1", 0, "bearer"⟩ rfl).2 (by decide)).trans rfl⟩

/-- The class-level capture of `OAuthCallbackHandler` (`authorization_code`,
`state`, `error`), read by `authorize_interactive` after the single request
has been handled or the timeout elapsed; all three start as `None`. -/
structure HandlerState where
  authorization_code : Option String
  state : Option String
  error : Option String
deriving DecidableEq, Repr

/-- `OuraAuth.authorize_interactive` (auth.py lines 432-483) after the
callback wait: vendor denial, then a missing code (timeout or failure),
then CSRF state inequality are checked in that order, before
`exchange_code` runs on the captured code. -/
def authorize_interactive (vendor : Vendor) (now : Int) (st : SessionState)
    (expected_state : String) (cb : HandlerState) :
    Except AuthErr (OAuthTokens × SessionState) :=
  match cb.error with
  | some e => .error (.authDenied e)
  | none =>
    match cb.authorization_code with
    | none => .error .timeout
    | some code =>
      if cb.state ≠ some expected_state then
        .error .stateMismatch
      else
        exchange_code vendor now st code

/-- C6: a callback whose `state` differs from the run's expected CSRF state
makes `authorize_interactive` fail with an `AuthError`, and the code
exchange is never invoked (the result is the same for every exchange
oracle); it likewise fails on a vendor-reported denial and when no callback
arrived before the timeout. -/
theorem authorize_interactive_rejects (now : Int) (st : SessionState)
    (expected_state : String) (cb : HandlerState) :
    (∀ code, cb.error = none → cb.authorization_code = some code →
      cb.state ≠ some expected_state →
      ∀ vendor, authorize_interactive vendor now st expected_state cb
        = .error .stateMismatch)
    ∧ (∀ e, cb.error = some e →
      ∀ vendor, authorize_interactive vendor now st expected_state cb
        = .error (.authDenied e))
    ∧ (cb.error = none → cb.authorization_code = none →
      ∀ vendor, authorize_interactive vendor now st expected_state cb
        = .error .timeout) := by
  refine ⟨fun code he hc hs vendor => ?_, fun e he vendor => ?_,
    fun he hc vendor => ?_⟩
  · simp [authorize_interactive, he, hc, hs]
  · simp [authorize_interactive, he]
  · simp [authorize_interactive, he, hc]

/-- Witness for C6 at concrete callback results. -/
theorem authorize_interactive_rejects_witness :
    authorize_interactive (fun _ => .ok ⟨"a2", "r2", some 3600, none⟩) 0 ⟨none, none⟩
        "expected" ⟨some "c", some "other", none⟩ = .error .stateMismatch
    ∧ authorize_interactive (fun _ => .ok ⟨"a2", "r2", some 3600, none⟩) 0 ⟨none, none⟩
        "expected" ⟨none, none, some "access_denied"⟩ = .error (.authDenied "access_denied")
    ∧ authorize_interactive (fun _ => .ok ⟨"a2", "r2", some 3600, none⟩) 0 ⟨none, none⟩
        "expected" ⟨none, none, none⟩ = .error .timeout := by
  refine ⟨(authorize_interactive_rejects 0 ⟨none, none⟩ "expected"
      ⟨some "c", some "other", none⟩).1 "c" rfl rfl (by decide) _,
    (authorize_interactive_rejects 0 ⟨none, none⟩ "expected"
      ⟨none, none, some "access_denied"⟩).2.1 "access_denied" rfl _,
    (authorize_interactive_rejects 0 ⟨none, none⟩ "expected"
      ⟨none, none, none⟩).2.2 rfl rfl _⟩

/-- The query parameters of one callback request, each key abstracted to
its first value when present (`urllib.parse.parse_qs`). -/
structure Query where
  code : Option String
  state : Option String
  error : Option String
deriving DecidableEq, Repr

/-- The HTTP response `_send_response` produces: status plus the message
interpolated into the page. -/
structure HttpResponse where
  status : Nat
  message : String
deriving DecidableEq, Repr

/-- `OAuthCallbackHandler.do_GET` (auth.py lines 258-271): `error` checked
first, then `code` (capturing `state` via `params.get("state", [None])[0]`),
else a 400 with nothing captured; captures go to the class-level state. -/
def do_GET (params : Query) (hs : HandlerState) : HandlerState × HttpResponse :=
  match params.error with
  | some e =>
    ({ hs with error := some e },
     ⟨200, "Authorization denied. You can close this window."⟩)
  | none =>
    match params.code with
    | some c =>
      ({ hs with authorization_code := some c, state := params.state },
       ⟨200, "Authorization successful! You can close this window."⟩)
    | none =>
      (hs, ⟨400, "Invalid callback. Missing code parameter."⟩)

/-- C9 counterexample: with `code`, `state` and `error` all present the
claim mandates the success outcome (both captured, success page), but
`do_GET` checks `error` first: it captures only the error and serves the
denial page, so the code is not captured. -/
theorem do_GET_counterexample :
    (⟨some "c", some "s", some "access_denied"⟩ : Query).code = some "c"
    ∧ (⟨some "c", some "s", some "access_denied"⟩ : Query).state = some "s"
    ∧ (do_GET ⟨some "c", some "s", some "access_denied"⟩ ⟨none, none, none⟩).1.authorization_code
        = none
    ∧ (do_GET ⟨some "c", some "s", some "access_denied"⟩ ⟨none, none, none⟩).2.message
        = "Authorization denied. You can close this window." := by
  exact ⟨rfl, rfl, rfl, rfl⟩

/-- C9 amended: exactly one outcome occurs per request, with the denial
check first: denial when `error` is present (error captured, denial page,
regardless of `code`/`state`); success when `error` is absent and `code`
present (code captured, `state` captured as given — possibly absent — and
the success page served); malformed when both `code` and `error` are absent
(client-error status 400, nothing captured). -/
theorem do_GET_outcomes (q : Query) (hs : HandlerState) :
    (∀ e, q.error = some e →
      do_GET q hs = ({ hs with error := some e },
        ⟨200, "Authorization denied. You can close this window."⟩))
    ∧ (∀ c, q.error = none → q.code = some c →
      do_GET q hs = ({ hs with authorization_code := some c, state := q.state },
        ⟨200, "Authorization successful! You can close this window."⟩))
    ∧ (q.error = none → q.code = none →
      do_GET q hs = (hs, ⟨400, "Invalid callback. Missing code parameter."⟩)) := by
  refine ⟨fun e he => ?_, fun c he hc => ?_, fun he hc => ?_⟩
  · simp [do_GET, he]
  · simp [do_GET, he, hc]
  · simp [do_GET, he, hc]

/-- Witness for C9 amended at the three concrete request shapes. -/
theorem do_GET_outcomes_witness :
    do_GET ⟨some "c", some "s", some "denied"⟩ ⟨none, none, none⟩
      = (⟨none, none, some "denied"⟩,
         ⟨200, "Authorization denied. You can close this window."⟩)
    ∧ do_GET ⟨some "c", none, none⟩ ⟨none, none, none⟩
      = (⟨some "c", none, none⟩,
         ⟨200, "Authorization successful! You can close this window."⟩)
    ∧ do_GET ⟨none, some "s", none⟩ ⟨none, none, none⟩
      = (⟨none, none, none⟩, ⟨400, "Invalid callback. Missing code parameter."⟩) := by
  exact ⟨(do_GET_outcomes ⟨some "c", some "s", some "denied"⟩ ⟨none, none, none⟩).1
      "denied" rfl,
    (do_GET_outcomes ⟨some "c", none, none⟩ ⟨none, none, none⟩).2.1 "c" rfl rfl,
    (do_GET_outcomes ⟨none, some "s", none⟩ ⟨none, none, none⟩).2.2 rfl rfl⟩

/-- The per-endpoint outcome recorded in `self.stats`: on success
`{"success": True, "records": n}`, on a caught exception
`{"success": False, "error": message}`. -/
inductive EndpointOutcome
  | ok (records : Nat)
  | failed (message : String)
deriving DecidableEq, Repr

/-- The fixed endpoint list of `OuraScraper.scrape_all` (scraper.py lines
46-70), in call order. -/
def endpointNames : List String :=
  ["personal_info", "daily_activity", "daily_sleep", "daily_readiness",
   "daily_stress", "daily_spo2", "sleep", "sleep_time", "heartrate",
   "workout", "session", "enhanced_tag", "rest_mode_period"]

/-- One `_scrape_<endpoint>` method (scraper.py lines 75-216): `step` is
the endpoint's fetch-or-store body (the API call followed by the upsert),
`Except.error` carrying the message of any exception it raises; the
exception is caught and recorded, and `personal_info` records a fixed
count of 1. -/
def scrapeEndpoint (step : String → Except String Nat) (name : String) :
    EndpointOutcome :=
  match step name with
  | .ok n => .ok (if name = "personal_info" then 1 else n)
  | .error e => .failed e

/-- `OuraScraper.scrape_all` (scraper.py lines 35-73): every endpoint of
the fixed list attempted in order, each outcome recorded under its name in
`self.stats`, and the aggregate returned. -/
def scrape_all (step : String → Except String Nat) :
    List (String × EndpointOutcome) :=
  endpointNames.map (fun name => (name, scrapeEndpoint step name))

/-- C2: for every run, every endpoint of the fixed list is attempted and
recorded in the returned report (so the run returns the aggregate rather
than raising); a failing fetch-or-store step is recorded as a failure
carrying its message without stopping the others; and with a step that
fails exactly on the second endpoint, the report records failure for the
second and success for the first and third. -/
theorem scrape_all_isolates_failures (step : String → Except String Nat)
    (name : String) (hmem : name ∈ endpointNames) :
    (scrape_all step).map Prod.fst = endpointNames
    ∧ (scrape_all step).lookup name = some (scrapeEndpoint step name)
    ∧ (∀ e, step name = .error e → scrapeEndpoint step name = .failed e)
    ∧ ((scrape_all fun n =>
          if n = "daily_activity" then .error "boom" else .ok 3).lookup "personal_info"
        = some (.ok 1)
      ∧ (scrape_all fun n =>
          if n = "daily_activity" then .error "boom" else .ok 3).lookup "daily_activity"
        = some (.failed "boom")
      ∧ (scrape_all fun n =>
          if n = "daily_activity" then .error "boom" else .ok 3).lookup "daily_sleep"
        = some (.ok 3)) := by
  refine ⟨rfl, ?_, fun e he => ?_, by decide⟩
  · simp only [endpointNames] at hmem
    fin_cases hmem <;> rfl
  · simp [scrapeEndpoint, he]

/-- Witness for C2: a step that always throws still yields a full report
with the failure recorded under the chosen endpoint. -/
theorem scrape_all_isolates_failures_witness :
    (scrape_all fun _ => .error "down").map Prod.fst = endpointNames
    ∧ (scrape_all fun _ => .error "down").lookup "daily_sleep"
      = some (.failed "down") := by
  have h := scrape_all_isolates_failures (fun _ => .error "down") "daily_sleep"
    (by decide)
  refine ⟨h.1, ?_⟩
  rw [h.2.1]
  rfl
